import Mathlib

/-!
# Monitoring & Alerting Engine and Task Scheduler: a shallow embedding

This file embeds the alert lifecycle (`AlertManager`), the threshold
evaluation of the monitoring engine (`MonitoringSystem._check_thresholds`),
the bounded metrics history of the monitoring loop, and the task scheduler
(`TaskScheduler`) of the SQL automation agent, and proves the behavioural
properties claimed by its specification.

Modelling conventions:
* Python `float` values become `ℚ`; `time.time()` and `datetime.now()`
  become an explicit `now : Nat` argument (seconds).
* Python `dict` (insertion ordered, unique keys) becomes an association
  list `List (String × β)` with `dictInsert` (replace-in-place on an
  existing key, append otherwise).
* Alert objects are mutable and shared between `active_alerts` and
  `alert_history` in Python.  Object identity is modelled with a `heap`
  (list of all alerts ever created, indexed by creation order); the active
  set and the history store heap indices, and mutation (`resolve_alert`)
  updates the heap entry in place, exactly as a Python attribute write on a
  shared object does.
* A task's callable is an opaque unit of work that may fail; it is
  modelled by supplying each invocation's outcome (`RunOutcome`) to
  `execute_task` rather than storing a function in the task record.
-/

namespace SQLAgent

/-- A Python dict assignment `d[k] = v`: replaces the value in place when
the key exists, appends a new binding otherwise. -/
def dictInsert {β : Type} (k : String) (v : β) : List (String × β) → List (String × β)
  | [] => [(k, v)]
  | p :: rest => if p.1 == k then (k, v) :: rest else p :: dictInsert k v rest

/-- Update the value stored under an existing key, keeping its position
(the effect of `d[k] = v` when `k` is already a key of `d`). -/
def dictSet {β : Type} (k : String) (v : β) (l : List (String × β)) : List (String × β) :=
  l.map (fun p => if p.1 == k then (p.1, v) else p)

/-- In-place mutation of the element at a given index (a Python attribute
write on the object stored there). -/
def listModify {α : Type} (f : α → α) : Nat → List α → List α
  | _, [] => []
  | 0, a :: rest => f a :: rest
  | n + 1, a :: rest => a :: listModify f n rest

/-! ## Alerts (`monitoring_system.py`, dataclass `Alert` and `AlertManager`) -/

/-- The `Alert` dataclass of `monitoring_system.py`. -/
structure Alert where
  id : String
  timestamp : Nat
  severity : String
  category : String
  message : String
  metric_name : String
  current_value : ℚ
  threshold_value : ℚ
  resolved : Bool := false
  resolved_timestamp : Option Nat := none
deriving Repr, DecidableEq

/-- `AlertManager` state: `heap` holds every alert object ever created (in
creation order, giving object identity); `active_alerts` is the dict
`id ↦ alert` (as heap index); `alert_history` is the append-only log (as
heap indices). -/
structure AlertManager where
  heap : List Alert
  active_alerts : List (String × Nat)
  alert_history : List Nat
deriving Repr, DecidableEq

/-- A freshly constructed `AlertManager` (no alerts). -/
def emptyAlertManager : AlertManager :=
  { heap := [], active_alerts := [], alert_history := [] }

/-- The alert id `f"{category}_{metric_name}_{int(time.time())}"` generated
by `AlertManager.create_alert`. -/
def alertId (category metric_name : String) (now : Nat) : String :=
  category ++ "_" ++ metric_name ++ "_" ++ toString now

/-- `AlertManager.create_alert`: builds the alert, inserts it into the
active dict under the generated id and appends it to the history, returning
the alert.  (The email side effect is external and does not touch this
state.) -/
def create_alert (m : AlertManager) (category metric_name message : String)
    (current_value threshold_value : ℚ) (severity : String) (now : Nat) :
    AlertManager × Alert :=
  let alert_id := alertId category metric_name now
  let alert : Alert :=
    { id := alert_id, timestamp := now, severity := severity, category := category,
      message := message, metric_name := metric_name,
      current_value := current_value, threshold_value := threshold_value }
  ({ heap := m.heap ++ [alert],
     active_alerts := dictInsert alert_id m.heap.length m.active_alerts,
     alert_history := m.alert_history ++ [m.heap.length] }, alert)

/-- The mutation `alert.resolved = True; alert.resolved_timestamp = datetime.now()`. -/
def markResolved (now : Nat) (a : Alert) : Alert :=
  { a with resolved := true, resolved_timestamp := some now }

/-- `AlertManager.resolve_alert`: when the id is an active key, mutates the
shared alert object, deletes the key from the active dict and returns
`true`; otherwise returns `false` leaving the state untouched. -/
def resolve_alert (m : AlertManager) (alert_id : String) (now : Nat) :
    AlertManager × Bool :=
  match m.active_alerts.find? (fun p => p.1 == alert_id) with
  | some found =>
      ({ m with
          heap := listModify (markResolved now) found.2 m.heap,
          active_alerts := m.active_alerts.filter (fun p => !(p.1 == alert_id)) }, true)
  | none => (m, false)

/-! ## Threshold evaluation (`MonitoringSystem._check_thresholds`) -/

/-- `MonitoringSystem._determine_severity`: severity from the ratio
`current_value / threshold`. -/
def determine_severity (current_value threshold : ℚ) : String :=
  let ratio := current_value / threshold
  if ratio ≥ 2 then "critical"
  else if ratio ≥ 1.5 then "high"
  else if ratio ≥ 1.2 then "medium"
  else "low"

/-- The alert message `f"{description} excede el umbral: ..."` (Python
renders the two values with two decimals; the exact rendering is
irrelevant to every property below). -/
def thresholdMessage (description : String) (current_value threshold : ℚ) : String :=
  description ++ " excede el umbral: " ++ toString current_value ++ " > " ++
    toString threshold

/-- Does the active-dict entry `p` (an id/heap-index pair) hold an alert for
`metric_name`?  This is the loop `for alert in active_alerts.values(): if
alert.metric_name == metric_name` applied to one entry. -/
def metricPred (heap : List Alert) (metric_name : String) (p : String × Nat) : Bool :=
  match heap.get? p.2 with
  | some a => a.metric_name == metric_name
  | none => false

/-- The existing-alert lookup of `_check_thresholds` (first active alert
whose `metric_name` matches, scanning in insertion order). -/
def findAlertByMetric (m : AlertManager) (metric_name : String) : Option (String × Nat) :=
  m.active_alerts.find? (metricPred m.heap metric_name)

/-- The `alerts_to_resolve` list of `_check_thresholds`: ids of all active
alerts for the metric. -/
def alertsToResolve (m : AlertManager) (metric_name : String) : List String :=
  (m.active_alerts.filter (metricPred m.heap metric_name)).map (fun p => p.1)

/-- The fixed `checks` list of `_check_thresholds`:
(metric name, description, category). -/
def checksList : List (String × String × String) :=
  [("connection_count", "Conexiones activas", "connection"),
   ("cpu_usage", "Uso de CPU", "performance"),
   ("memory_usage", "Uso de memoria", "performance"),
   ("disk_usage", "Uso de disco", "disk"),
   ("slow_queries_count", "Consultas lentas", "query")]

/-- One iteration of the `for metric_name, description, category in checks`
loop of `_check_thresholds`: skip unless the metric is present in both the
snapshot and the thresholds; on a breach create an alert unless one is
already active for the metric; otherwise resolve every active alert for the
metric. -/
def checkMetric (metrics thresholds : List (String × ℚ)) (now : Nat)
    (m : AlertManager) (check : String × String × String) : AlertManager :=
  match metrics.find? (fun p => p.1 == check.1),
        thresholds.find? (fun p => p.1 == check.1) with
  | some mv, some tv =>
      if mv.2 > tv.2 then
        match findAlertByMetric m check.1 with
        | some _ => m
        | none =>
            (create_alert m check.2.2 check.1
              (thresholdMessage check.2.1 mv.2 tv.2)
              mv.2 tv.2 (determine_severity mv.2 tv.2) now).1
      else
        (alertsToResolve m check.1).foldl
          (fun acc alert_id => (resolve_alert acc alert_id now).1) m
  | _, _ => m

/-- `MonitoringSystem._check_thresholds` over one metric snapshot. -/
def check_thresholds (m : AlertManager) (metrics thresholds : List (String × ℚ))
    (now : Nat) : AlertManager :=
  checksList.foldl (checkMetric metrics thresholds now) m

/-! ## Metrics history retention (`MonitoringSystem._monitoring_loop`) -/

/-- One history update of `_monitoring_loop`: append the snapshot, then
`if len(history) > 1000: history = history[-1000:]`. -/
def record_metrics {α : Type} (metrics_history : List α) (snapshot : α) : List α :=
  let h := metrics_history ++ [snapshot]
  if h.length > 1000 then h.drop (h.length - 1000) else h

/-! ## Alert-manager invariants -/

/-- Number of active alerts whose `metric_name` is the given one. -/
def activeCountFor (m : AlertManager) (metric_name : String) : Nat :=
  m.active_alerts.countP (metricPred m.heap metric_name)

/-- The deduplication invariant: at most one unresolved (active) alert per
distinct metric name. -/
def AtMostOnePerMetric (m : AlertManager) : Prop :=
  ∀ metric_name : String, activeCountFor m metric_name ≤ 1

/-- Structural well-formedness: every active entry points into the heap
(true of every state reachable from `emptyAlertManager`). -/
def IndicesWF (m : AlertManager) : Prop :=
  ∀ p ∈ m.active_alerts, p.2 < m.heap.length

/-! ## Task scheduler (`scheduler.py`) -/

/-- The `ScheduledTask` dataclass.  The Python field `function : Callable`
is an opaque unit of work; its behaviour is modelled by the `RunOutcome`
supplied to each invocation of `execute_task`, so it is not stored here.
`schedule_value` (Python `Any`: an interval in seconds or a time-of-day /
weekday string) is kept as its textual form; no property below inspects
it. -/
structure ScheduledTask where
  id : String
  name : String
  schedule_type : String
  schedule_value : String
  enabled : Bool := true
  last_run : Option Nat := none
  next_run : Option Nat := none
  run_count : Nat := 0
  error_count : Nat := 0
  last_error : Option String := none
deriving Repr, DecidableEq

/-- `TaskScheduler` state: the `scheduled_tasks` dict and the tags armed in
the underlying `schedule` library (`.tag(task.id)` on arming,
`schedule.clear(task_id)` on cancel). -/
structure SchedulerState where
  scheduled_tasks : List (String × ScheduledTask)
  armed : List String
deriving Repr, DecidableEq

/-- Outcome of invoking a task's callable: a returned value (possibly
`None`) or a raised exception with its message. -/
inductive RunOutcome where
  | ok : Option String → RunOutcome
  | err : String → RunOutcome
deriving Repr, DecidableEq

/-- A scheduler with an empty registry and nothing armed. -/
def emptySchedulerState : SchedulerState :=
  { scheduled_tasks := [], armed := [] }

/-- `TaskScheduler.add_task`: rejects an existing id; otherwise stores the
new task and, if it is enabled, arms its cadence (tagged with the id). -/
def add_task (s : SchedulerState) (task_id name : String)
    (schedule_type schedule_value : String) (enabled : Bool) :
    SchedulerState × Bool :=
  if (s.scheduled_tasks.find? (fun p => p.1 == task_id)).isSome then
    (s, false)
  else
    let task : ScheduledTask :=
      { id := task_id, name := name, schedule_type := schedule_type,
        schedule_value := schedule_value, enabled := enabled }
    ({ scheduled_tasks := s.scheduled_tasks ++ [(task_id, task)],
       armed := if enabled then s.armed ++ [task_id] else s.armed }, true)

/-- `TaskScheduler.disable_task`: for a known id, sets `enabled = False` on
the task object and clears every armed cadence entry tagged with the id;
returns `false` for an unknown id. -/
def disable_task (s : SchedulerState) (task_id : String) : SchedulerState × Bool :=
  match s.scheduled_tasks.find? (fun p => p.1 == task_id) with
  | none => (s, false)
  | some found =>
      ({ scheduled_tasks := dictSet task_id { found.2 with enabled := false }
            s.scheduled_tasks,
         armed := s.armed.filter (fun tag => !(tag == task_id)) }, true)

/-- `TaskScheduler._execute_task` on the task registered under `task_id`
(the Python closure captures the registry's task object): stamp `last_run`
and bump `run_count` before invoking the callable; on success clear
`last_error`; on failure bump `error_count`, store the message, and when
`error_count` has reached 5, call `disable_task`. -/
def execute_task (s : SchedulerState) (task_id : String) (outcome : RunOutcome)
    (now : Nat) : SchedulerState :=
  match s.scheduled_tasks.find? (fun p => p.1 == task_id) with
  | none => s
  | some found =>
      let started :=
        { found.2 with last_run := some now, run_count := found.2.run_count + 1 }
      match outcome with
      | .ok _ =>
          { s with scheduled_tasks :=
              dictSet task_id { started with last_error := none } s.scheduled_tasks }
      | .err e =>
          let failed :=
            { started with error_count := started.error_count + 1, last_error := some e }
          let s' := { s with scheduled_tasks := dictSet task_id failed s.scheduled_tasks }
          if failed.error_count ≥ 5 then (disable_task s' task_id).1 else s'

/-- A sequence of automatic invocations of one task, each with its outcome
and wall-clock time. -/
def run_events (s : SchedulerState) (task_id : String)
    (events : List (RunOutcome × Nat)) : SchedulerState :=
  events.foldl (fun acc ev => execute_task acc task_id ev.1 ev.2) s

/-- `TaskScheduler._check_database_connection`: tests reachability; on
failure raises the critical connection alert through
`AlertManager.create_alert` and returns `False`, otherwise returns `True`.
The reachability answer `is_connected` is the value of the external
`db_manager.test_connection()`. -/
def check_database_connection (am : AlertManager) (is_connected : Bool) (now : Nat) :
    AlertManager × Bool :=
  if !is_connected then
    ((create_alert am "connection" "database_connection"
        "Conexión a la base de datos perdida" 0 1 "critical" now).1, false)
  else
    (am, true)

/-! ## Concrete fixtures used by witnesses and derived states -/

/-- A concrete one-alert manager used to witness C6. -/
def resolveWitnessAlert : Alert :=
  { id := "disk_disk_usage_10", timestamp := 10, severity := "high",
    category := "disk", message := "breach", metric_name := "disk_usage",
    current_value := 95, threshold_value := 90 }

/-- The manager holding `resolveWitnessAlert` as its only active alert. -/
def resolveWitnessManager : AlertManager :=
  { heap := [resolveWitnessAlert],
    active_alerts := [("disk_disk_usage_10", 0)],
    alert_history := [0] }

/-- The manager after a first connection-loss alert created at second 100. -/
def collisionManager : AlertManager :=
  (create_alert emptyAlertManager "connection" "database_connection"
    "first breach" 0 1 "critical" 100).1

/-- A registered task used to witness C9's rejection branch. -/
def registryWitnessTask : ScheduledTask :=
  { id := "connection_check", name := "Verificación de Conexión",
    schedule_type := "interval", schedule_value := "300" }

/-- A scheduler that already holds `registryWitnessTask`. -/
def registryWitnessState : SchedulerState :=
  { scheduled_tasks := [("connection_check", registryWitnessTask)],
    armed := ["connection_check"] }

/-- Did this invocation fail (raise an exception)? -/
def isFailure (ev : RunOutcome × Nat) : Bool :=
  match ev.1 with
  | .err _ => true
  | .ok _ => false

/-- Number of failing invocations in a run sequence. -/
def countFailures (events : List (RunOutcome × Nat)) : Nat :=
  events.countP isFailure

/-- The alert created by the first breaching sample `T + 1` for a metric. -/
def hysAlert (met desc cat : String) (T : ℚ) (t1 : Nat) : Alert :=
  { id := alertId cat met t1, timestamp := t1,
    severity := determine_severity (T + 1) T, category := cat,
    message := thresholdMessage desc (T + 1) T, metric_name := met,
    current_value := T + 1, threshold_value := T }

/-- The manager state after that first breach (one active alert). -/
def hysManagerOne (met desc cat : String) (T : ℚ) (t1 : Nat) : AlertManager :=
  { heap := [hysAlert met desc cat T t1],
    active_alerts := [(alertId cat met t1, 0)],
    alert_history := [0] }

/-- The manager state after the recovery sample `T - 1` (alert resolved,
active set empty, history unchanged). -/
def hysManagerThree (met desc cat : String) (T : ℚ) (t1 t3 : Nat) : AlertManager :=
  { heap := [markResolved t3 (hysAlert met desc cat T t1)],
    active_alerts := [],
    alert_history := [0] }

/-! ## General lemmas about the container operations -/

theorem listModify_length {α : Type} (f : α → α) :
    ∀ (i : Nat) (l : List α), (listModify f i l).length = l.length
  | i, [] => by cases i <;> rfl
  | 0, _ :: _ => rfl
  | i + 1, _ :: rest => by simp [listModify, listModify_length f i rest]

theorem listModify_get? {α : Type} (f : α → α) :
    ∀ (i j : Nat) (l : List α),
      (listModify f i l).get? j = if i = j then (l.get? j).map f else l.get? j
  | i, j, [] => by cases i <;> simp [listModify]
  | 0, 0, a :: rest => rfl
  | 0, j + 1, a :: rest => by simp [listModify]
  | i + 1, 0, a :: rest => by simp [listModify]
  | i + 1, j + 1, a :: rest => by
      simpa [listModify] using listModify_get? f i j rest

theorem mem_dictInsert {β : Type} (k : String) (v : β) :
    ∀ (l : List (String × β)) (p : String × β),
      p ∈ dictInsert k v l → p = (k, v) ∨ p ∈ l
  | [], p, h => by simpa [dictInsert] using h
  | q :: rest, p, h => by
      by_cases hq : q.1 == k
      · simp only [dictInsert, if_pos hq, List.mem_cons] at h
        rcases h with h | h
        · exact Or.inl h
        · exact Or.inr (List.mem_cons_of_mem _ h)
      · simp only [dictInsert, if_neg hq, List.mem_cons] at h
        rcases h with h | h
        · exact Or.inr (h ▸ List.mem_cons_self _ _)
        · rcases mem_dictInsert k v rest p h with h' | h'
          · exact Or.inl h'
          · exact Or.inr (List.mem_cons_of_mem _ h')

theorem countP_dictInsert_le {β : Type} (q : String × β → Bool) (k : String) (v : β) :
    ∀ l : List (String × β),
      (dictInsert k v l).countP q ≤ l.countP q + (if q (k, v) then 1 else 0)
  | [] => by simp [dictInsert, List.countP_cons]
  | p :: rest => by
      have ih := countP_dictInsert_le q k v rest
      by_cases hp : p.1 == k
      · simp only [dictInsert, if_pos hp, List.countP_cons]
        omega
      · simp only [dictInsert, if_neg hp, List.countP_cons]
        omega

theorem dictInsert_of_not_mem {β : Type} (k : String) (v : β) :
    ∀ l : List (String × β), (∀ p ∈ l, ¬ p.1 = k) → dictInsert k v l = l ++ [(k, v)]
  | [], _ => rfl
  | p :: rest, h => by
      have hp : ¬ p.1 = k := h p (List.mem_cons_self _ _)
      have hp' : (p.1 == k) = false := beq_eq_false_iff_ne.mpr hp
      simp only [dictInsert, hp', Bool.false_eq_true, if_false, List.cons_append,
        List.cons.injEq, true_and]
      exact dictInsert_of_not_mem k v rest fun q hq => h q (List.mem_cons_of_mem _ hq)

theorem find?_dictSet {β : Type} (k : String) (v : β) :
    ∀ l : List (String × β),
      (dictSet k v l).find? (fun p => p.1 == k) =
        (l.find? (fun p => p.1 == k)).map (fun p => (p.1, v))
  | [] => rfl
  | p :: rest => by
      have hstep : dictSet k v (p :: rest) =
          (if p.1 == k then (p.1, v) else p) :: dictSet k v rest := rfl
      rw [hstep]
      by_cases hp : (p.1 == k) = true
      · rw [if_pos hp]
        simp only [List.find?_cons, hp]
        rfl
      · rw [if_neg hp]
        have hp' : (p.1 == k) = false := by simpa using hp
        simp only [List.find?_cons, hp']
        exact find?_dictSet k v rest

theorem dictSet_dictSet {β : Type} (k : String) (v v' : β) (l : List (String × β)) :
    dictSet k v' (dictSet k v l) = dictSet k v' l := by
  simp only [dictSet, List.map_map]
  refine List.map_congr_left fun p _ => ?_
  by_cases hp : (p.1 == k) = true
  · have hk : p.1 = k := by simpa using hp
    simp [Function.comp_apply, hp, hk]
  · have hk : ¬ p.1 = k := by simpa using hp
    simp [Function.comp_apply, hp, hk]

/-! ## C2: severity tiers -/

/-- C2: for `t > 0` and `v > t`, the severity of the created alert is a
function of the ratio `v / t`, with inclusive lower bounds on each tier:
`≥ 2` gives critical, `[1.5, 2)` gives high, `[1.2, 1.5)` gives medium and
`< 1.2` gives low. -/
theorem severity_from_ratio (v t : ℚ) (ht : 0 < t) (hv : t < v) :
    (2 ≤ v / t → determine_severity v t = "critical") ∧
    (1.5 ≤ v / t ∧ v / t < 2 → determine_severity v t = "high") ∧
    (1.2 ≤ v / t ∧ v / t < 1.5 → determine_severity v t = "medium") ∧
    (v / t < 1.2 → determine_severity v t = "low") := by
  have hr : (0 : ℚ) < v / t := div_pos (lt_trans ht hv) ht
  simp only [determine_severity, ge_iff_le]
  refine ⟨fun h => ?_, fun h => ?_, fun h => ?_, fun h => ?_⟩ <;>
    split_ifs <;>
      first
        | rfl
        | (exfalso; obtain ⟨ha, hb⟩ := h; linarith)
        | (exfalso; linarith)

/-- Witness for C2 at the boundary input `v = 6, t = 5` (ratio exactly
`1.2`, so the severity is medium, not low). -/
theorem severity_from_ratio_witness :
    (0 : ℚ) < 5 ∧ (5 : ℚ) < 6 ∧
      ((2 ≤ (6 : ℚ) / 5 → determine_severity 6 5 = "critical") ∧
       (1.5 ≤ (6 : ℚ) / 5 ∧ (6 : ℚ) / 5 < 2 → determine_severity 6 5 = "high") ∧
       (1.2 ≤ (6 : ℚ) / 5 ∧ (6 : ℚ) / 5 < 1.5 → determine_severity 6 5 = "medium") ∧
       ((6 : ℚ) / 5 < 1.2 → determine_severity 6 5 = "low")) :=
  ⟨by norm_num, by norm_num, severity_from_ratio 6 5 (by norm_num) (by norm_num)⟩

/-! ## C4: bounded metrics history -/

theorem foldl_record_range (n : Nat) :
    (List.range n).foldl record_metrics ([] : List Nat) =
      (List.range n).drop (n - 1000) := by
  induction n with
  | zero => rfl
  | succ n ih =>
      rw [List.range_succ, List.foldl_append, List.foldl_cons, List.foldl_nil, ih]
      simp only [record_metrics, List.length_append, List.length_drop,
        List.length_range, List.length_singleton]
      by_cases hn : n < 1000
      · have h0 : n - 1000 = 0 := by omega
        have h1 : n + 1 - 1000 = 0 := by omega
        have hcond : ¬ (n - (n - 1000) + 1 > 1000) := by omega
        rw [if_neg hcond, h0, h1, List.drop_zero, List.drop_zero]
      · have hlen : n - (n - 1000) = 1000 := by omega
        have hcond : n - (n - 1000) + 1 > 1000 := by omega
        rw [if_pos hcond, hlen]
        have hdropped : ((List.range n).drop (n - 1000)).length = 1000 := by
          simp [List.length_drop, List.length_range, hlen]
        rw [List.drop_append_of_le_length
              (by simp only [List.length_range]; omega : n + 1 - 1000 ≤ (List.range n).length)]
        rw [List.drop_append_of_le_length (by omega : 1000 + 1 - 1000 ≤
              ((List.range n).drop (n - 1000)).length)]
        rw [List.drop_drop]
        have harith : n - 1000 + (1000 + 1 - 1000) = n + 1 - 1000 := by omega
        rw [harith]

/-- C4: the metrics history is bounded at 1000 entries — after appending
the 1001 sequential snapshots `0, 1, ..., 1000` to an empty history under
the monitoring loop's retention rule, the oldest snapshot `0` is absent and
exactly the 1000 most recent snapshots `1, ..., 1000` remain, in insertion
order with the most recent last. -/
theorem metrics_history_bound :
    ((List.range 1001).foldl record_metrics ([] : List Nat)).length = 1000 ∧
    (0 : Nat) ∉ (List.range 1001).foldl record_metrics ([] : List Nat) ∧
    (List.range 1001).foldl record_metrics ([] : List Nat) =
      (List.range 1000).map (fun i => i + 1) := by
  have h := foldl_record_range 1001
  have hdrop : (List.range 1001).drop (1001 - 1000) =
      (List.range 1000).map (fun i => i + 1) := by
    have : (1001 : Nat) = 1000 + 1 := rfl
    rw [this, List.range_succ_eq_map]
    simp [Nat.succ_eq_add_one]
  rw [h, hdrop]
  refine ⟨by simp, by simp, rfl⟩

/-! ## C6: resolve_alert lifecycle -/

/-- C6: when `alert_id` is an active key, `resolve_alert` sets the shared
alert object's `resolved` flag and `resolved_timestamp`, removes exactly
that id from the active set (keeping every other entry) and returns `true`;
when `alert_id` is not an active key it returns `false` and leaves the
state unchanged. -/
theorem resolve_alert_lifecycle (m : AlertManager) (alert_id : String) (now : Nat) :
    (∀ found, m.active_alerts.find? (fun p => p.1 == alert_id) = some found →
      ∀ a, m.heap.get? found.2 = some a →
        (resolve_alert m alert_id now).2 = true ∧
        (resolve_alert m alert_id now).1.heap.get? found.2 =
          some { a with resolved := true, resolved_timestamp := some now } ∧
        (∀ q ∈ (resolve_alert m alert_id now).1.active_alerts, q.1 ≠ alert_id) ∧
        (∀ q ∈ m.active_alerts, q.1 ≠ alert_id →
          q ∈ (resolve_alert m alert_id now).1.active_alerts) ∧
        (resolve_alert m alert_id now).1.alert_history = m.alert_history) ∧
    (m.active_alerts.find? (fun p => p.1 == alert_id) = none →
      resolve_alert m alert_id now = (m, false)) := by
  constructor
  · intro found hfind a ha
    have hres : resolve_alert m alert_id now =
        ({ m with
            heap := listModify (markResolved now) found.2 m.heap,
            active_alerts := m.active_alerts.filter (fun p => !(p.1 == alert_id)) },
          true) := by
      simp only [resolve_alert, hfind]
    rw [hres]
    refine ⟨rfl, ?_, ?_, ?_, rfl⟩
    · show (listModify (markResolved now) found.2 m.heap).get? found.2 = _
      rw [listModify_get?, if_pos rfl, ha]
      rfl
    · intro q hq
      have := (List.mem_filter.mp hq).2
      simpa using this
    · intro q hq hne
      exact List.mem_filter.mpr ⟨hq, by simpa using hne⟩
  · intro hnone
    simp only [resolve_alert, hnone]

/-- Witness for C6: resolving the known id succeeds and mutates the alert;
resolving an unknown id is a returning-`false` no-op. -/
theorem resolve_alert_lifecycle_witness :
    (resolve_alert resolveWitnessManager "disk_disk_usage_10" 11).2 = true ∧
    (resolve_alert resolveWitnessManager "disk_disk_usage_10" 11).1.heap.get? 0 =
      some { resolveWitnessAlert with resolved := true, resolved_timestamp := some 11 } ∧
    (resolve_alert resolveWitnessManager "disk_disk_usage_10" 11).1.alert_history = [0] ∧
    resolve_alert resolveWitnessManager "missing_id" 11 = (resolveWitnessManager, false) := by
  have h := resolve_alert_lifecycle resolveWitnessManager "disk_disk_usage_10" 11
  have h1 := h.1 ("disk_disk_usage_10", 0) (by decide) resolveWitnessAlert (by decide)
  have h2 := (resolve_alert_lifecycle resolveWitnessManager "missing_id" 11).2 (by decide)
  exact ⟨h1.1, h1.2.1, h1.2.2.2.2, h2⟩

/-! ## C7: alert-id uniqueness (corrected) -/

/-- Counterexample to C7 as stated: two distinct `create_alert` calls in
the same whole second with the same category and metric name generate the
same id, and the second alert displaces the first in the active dict — the
active set holds one entry after two creates while the history holds
two. -/
theorem create_alert_id_collision :
    (create_alert emptyAlertManager "connection" "database_connection"
        "first breach" 0 1 "critical" 100).2.id =
      (create_alert collisionManager "connection" "database_connection"
        "second breach" 0 1 "critical" 100).2.id ∧
    (create_alert collisionManager "connection" "database_connection"
        "second breach" 0 1 "critical" 100).1.active_alerts.length = 1 ∧
    (create_alert collisionManager "connection" "database_connection"
        "second breach" 0 1 "critical" 100).1.alert_history.length = 2 := by
  decide

/-- C7 amended: ids are derived from category, metric name and the
whole-second creation time, so they are only unique when those differ.
Whenever the two generated ids differ (and neither collides with an
already-active key), two `create_alert` calls add two active entries and
two history entries — no displacement. -/
theorem create_alert_distinct_ids
    (m : AlertManager) (cat1 met1 msg1 sev1 : String) (v1 th1 : ℚ) (t1 : Nat)
    (cat2 met2 msg2 sev2 : String) (v2 th2 : ℚ) (t2 : Nat)
    (hne : alertId cat1 met1 t1 ≠ alertId cat2 met2 t2)
    (hf1 : ∀ p ∈ m.active_alerts, p.1 ≠ alertId cat1 met1 t1)
    (hf2 : ∀ p ∈ m.active_alerts, p.1 ≠ alertId cat2 met2 t2) :
    ((create_alert (create_alert m cat1 met1 msg1 v1 th1 sev1 t1).1
        cat2 met2 msg2 v2 th2 sev2 t2).1).active_alerts.length =
      m.active_alerts.length + 2 ∧
    ((create_alert (create_alert m cat1 met1 msg1 v1 th1 sev1 t1).1
        cat2 met2 msg2 v2 th2 sev2 t2).1).alert_history.length =
      m.alert_history.length + 2 := by
  simp only [create_alert]
  rw [dictInsert_of_not_mem _ _ _ hf1]
  rw [dictInsert_of_not_mem _ _ _ ?h2]
  case h2 =>
    intro p hp
    rcases List.mem_append.mp hp with hp' | hp'
    · exact hf2 p hp'
    · simp only [List.mem_singleton] at hp'
      subst hp'
      exact hne
  constructor
  · simp [List.length_append]
  · simp [List.length_append]

/-- Witness for the amended C7 at two creates in distinct seconds. -/
theorem create_alert_distinct_ids_witness :
    alertId "connection" "database_connection" 100 ≠
      alertId "connection" "database_connection" 101 ∧
    ((create_alert (create_alert emptyAlertManager "connection" "database_connection"
        "first breach" 0 1 "critical" 100).1 "connection" "database_connection"
        "second breach" 0 1 "critical" 101).1).active_alerts.length = 0 + 2 ∧
    ((create_alert (create_alert emptyAlertManager "connection" "database_connection"
        "first breach" 0 1 "critical" 100).1 "connection" "database_connection"
        "second breach" 0 1 "critical" 101).1).alert_history.length = 0 + 2 := by
  have h := create_alert_distinct_ids emptyAlertManager
    "connection" "database_connection" "first breach" "critical" 0 1 100
    "connection" "database_connection" "second breach" "critical" 0 1 101
    (by decide) (by decide) (by decide)
  exact ⟨by decide, h.1, h.2⟩

/-! ## C8: the connection-health check task -/

/-- C8: when reachability fails, `_check_database_connection` creates
exactly one new active alert — category `"connection"`, metric
`"database_connection"`, value 0 against threshold 1, severity
`"critical"` — and returns `False`; when reachability holds it returns
`True` and creates nothing. -/
theorem connection_check_behaviour (am : AlertManager) (now : Nat)
    (hfresh : ∀ p ∈ am.active_alerts,
      p.1 ≠ alertId "connection" "database_connection" now) :
    (check_database_connection am false now).2 = false ∧
    (check_database_connection am false now).1.active_alerts =
      am.active_alerts ++
        [(alertId "connection" "database_connection" now, am.heap.length)] ∧
    (check_database_connection am false now).1.alert_history =
      am.alert_history ++ [am.heap.length] ∧
    (check_database_connection am false now).1.heap.get? am.heap.length = some
      { id := alertId "connection" "database_connection" now, timestamp := now,
        severity := "critical", category := "connection",
        message := "Conexión a la base de datos perdida",
        metric_name := "database_connection", current_value := 0,
        threshold_value := 1 } ∧
    check_database_connection am true now = (am, true) := by
  refine ⟨rfl, ?_, rfl, ?_, rfl⟩
  · show dictInsert (alertId "connection" "database_connection" now)
      am.heap.length am.active_alerts = _
    exact dictInsert_of_not_mem _ _ _ hfresh
  · show (am.heap ++ [_]).get? am.heap.length = _
    simp [List.get?_eq_getElem?, List.getElem?_concat_length]

/-- Witness for C8 on a fresh `AlertManager`. -/
theorem connection_check_behaviour_witness :
    (check_database_connection emptyAlertManager false 7).2 = false ∧
    (check_database_connection emptyAlertManager false 7).1.active_alerts =
      [] ++ [(alertId "connection" "database_connection" 7, 0)] ∧
    (check_database_connection emptyAlertManager false 7).1.heap.get? 0 = some
      { id := alertId "connection" "database_connection" 7, timestamp := 7,
        severity := "critical", category := "connection",
        message := "Conexión a la base de datos perdida",
        metric_name := "database_connection", current_value := 0,
        threshold_value := 1 } ∧
    check_database_connection emptyAlertManager true 7 =
      (emptyAlertManager, true) := by
  have h := connection_check_behaviour emptyAlertManager 7 (by decide)
  exact ⟨h.1, h.2.1, h.2.2.2.1, h.2.2.2.2⟩

/-! ## C9: task registration -/

/-- C9: `add_task` on an id already in the registry returns `false` and
changes nothing; on a fresh id it appends the new `ScheduledTask`, returns
`true`, and arms the cadence (tags the id) exactly when the task is
enabled. -/
theorem add_task_registry (s : SchedulerState)
    (task_id nm sched_type sched_value : String) (enabled : Bool) :
    ((∃ q, s.scheduled_tasks.find? (fun p => p.1 == task_id) = some q) →
      add_task s task_id nm sched_type sched_value enabled = (s, false)) ∧
    (s.scheduled_tasks.find? (fun p => p.1 == task_id) = none →
      (add_task s task_id nm sched_type sched_value enabled).2 = true ∧
      (add_task s task_id nm sched_type sched_value enabled).1.scheduled_tasks =
        s.scheduled_tasks ++
          [(task_id, { id := task_id, name := nm, schedule_type := sched_type,
                       schedule_value := sched_value, enabled := enabled })] ∧
      (add_task s task_id nm sched_type sched_value enabled).1.armed =
        (if enabled then s.armed ++ [task_id] else s.armed)) := by
  constructor
  · rintro ⟨q, hq⟩
    simp only [add_task, hq, Option.isSome_some, if_pos]
  · intro hnone
    have hadd : add_task s task_id nm sched_type sched_value enabled =
        ({ scheduled_tasks := s.scheduled_tasks ++
              [(task_id, { id := task_id, name := nm, schedule_type := sched_type,
                           schedule_value := sched_value, enabled := enabled })],
           armed := if enabled then s.armed ++ [task_id] else s.armed },
          true) := by
      simp only [add_task, hnone, Option.isSome_none, Bool.false_eq_true, if_false]
    rw [hadd]
    exact ⟨rfl, rfl, rfl⟩

/-- Witness for C9: re-adding `"connection_check"` is rejected unchanged;
adding a fresh enabled task stores it and arms it. -/
theorem add_task_registry_witness :
    add_task registryWitnessState "connection_check" "Duplicada" "interval" "60" true =
      (registryWitnessState, false) ∧
    (add_task registryWitnessState "daily_backup" "Backup Diario" "daily" "02:00"
      true).1.scheduled_tasks =
        registryWitnessState.scheduled_tasks ++
          [("daily_backup", { id := "daily_backup", name := "Backup Diario",
                              schedule_type := "daily", schedule_value := "02:00",
                              enabled := true })] ∧
    (add_task registryWitnessState "daily_backup" "Backup Diario" "daily" "02:00"
      true).1.armed = (if true then registryWitnessState.armed ++ ["daily_backup"]
        else registryWitnessState.armed) := by
  have h1 := (add_task_registry registryWitnessState "connection_check" "Duplicada"
    "interval" "60" true).1 ⟨("connection_check", registryWitnessTask), by decide⟩
  have h2 := (add_task_registry registryWitnessState "daily_backup" "Backup Diario"
    "daily" "02:00" true).2 (by decide)
  exact ⟨h1, h2.2.1, h2.2.2⟩

/-! ## Execution accounting lemmas (`TaskScheduler._execute_task`) -/

theorem execute_task_ok_step (s : SchedulerState) (task_id : String)
    (tk : ScheduledTask) (r : Option String) (now : Nat)
    (hfind : s.scheduled_tasks.find? (fun p => p.1 == task_id) = some (task_id, tk)) :
    (execute_task s task_id (.ok r) now).scheduled_tasks.find?
        (fun p => p.1 == task_id) =
      some (task_id,
        { tk with
            last_run := some now, run_count := tk.run_count + 1,
            last_error := none }) ∧
    (execute_task s task_id (.ok r) now).armed = s.armed := by
  have hexec : execute_task s task_id (.ok r) now =
      { s with scheduled_tasks := (dictSet task_id
          { tk with
              last_run := some now, run_count := tk.run_count + 1,
              last_error := none } s.scheduled_tasks) } := by
    simp only [execute_task, hfind]
  rw [hexec]
  refine ⟨?_, rfl⟩
  show (dictSet task_id _ s.scheduled_tasks).find? _ = _
  rw [find?_dictSet, hfind]
  rfl

theorem execute_task_err_step (s : SchedulerState) (task_id : String)
    (tk : ScheduledTask) (e : String) (now : Nat)
    (hfind : s.scheduled_tasks.find? (fun p => p.1 == task_id) = some (task_id, tk)) :
    (execute_task s task_id (.err e) now).scheduled_tasks.find?
        (fun p => p.1 == task_id) =
      some (task_id,
        { tk with
            last_run := some now, run_count := tk.run_count + 1,
            error_count := tk.error_count + 1, last_error := some e,
            enabled := if 5 ≤ tk.error_count + 1 then false else tk.enabled }) ∧
    (execute_task s task_id (.err e) now).armed =
      (if 5 ≤ tk.error_count + 1 then s.armed.filter (fun tag => !(tag == task_id))
       else s.armed) := by
  have hf' : (dictSet task_id
      { tk with
          last_run := some now, run_count := tk.run_count + 1,
          error_count := tk.error_count + 1, last_error := some e }
      s.scheduled_tasks).find? (fun p => p.1 == task_id) =
      some (task_id,
        { tk with
            last_run := some now, run_count := tk.run_count + 1,
            error_count := tk.error_count + 1, last_error := some e }) := by
    rw [find?_dictSet, hfind]
    rfl
  by_cases h5 : 5 ≤ tk.error_count + 1
  · have hexec : execute_task s task_id (.err e) now =
        (disable_task { s with scheduled_tasks := (dictSet task_id
            { tk with
                last_run := some now, run_count := tk.run_count + 1,
                error_count := tk.error_count + 1, last_error := some e }
            s.scheduled_tasks) } task_id).1 := by
      simp only [execute_task, hfind, ge_iff_le]
      rw [if_pos h5]
    have hdis : disable_task { s with scheduled_tasks := (dictSet task_id
        { tk with
            last_run := some now, run_count := tk.run_count + 1,
            error_count := tk.error_count + 1, last_error := some e }
        s.scheduled_tasks) } task_id =
        ({ scheduled_tasks := (dictSet task_id
            { tk with
                last_run := some now, run_count := tk.run_count + 1,
                error_count := tk.error_count + 1, last_error := some e,
                enabled := false }
            (dictSet task_id
              { tk with
                  last_run := some now, run_count := tk.run_count + 1,
                  error_count := tk.error_count + 1, last_error := some e }
              s.scheduled_tasks)),
           armed := s.armed.filter (fun tag => !(tag == task_id)) },
          true) := by
      simp only [disable_task, hf']
    rw [hexec, hdis]
    constructor
    · show (dictSet task_id _ (dictSet task_id _ s.scheduled_tasks)).find? _ = _
      rw [dictSet_dictSet, find?_dictSet, hfind, if_pos h5]
      rfl
    · rw [if_pos h5]
  · have hexec : execute_task s task_id (.err e) now =
        { s with scheduled_tasks := (dictSet task_id
            { tk with
                last_run := some now, run_count := tk.run_count + 1,
                error_count := tk.error_count + 1, last_error := some e }
            s.scheduled_tasks) } := by
      simp only [execute_task, hfind, ge_iff_le]
      rw [if_neg h5]
    rw [hexec, if_neg h5, if_neg h5]
    exact ⟨hf', rfl⟩

/-- Accounting over any sequence of invocations of a registered task:
`run_count` counts every invocation, `error_count` accumulates exactly the
failures (successes never reset it), the task ends disabled exactly when
some failure pushed the total to the ceiling 5, and in that case its
cadence tag is also gone from the armed set (the armed set never grows). -/
theorem run_events_accounting :
    ∀ (events : List (RunOutcome × Nat)) (s : SchedulerState) (task_id : String)
      (tk : ScheduledTask),
      s.scheduled_tasks.find? (fun p => p.1 == task_id) = some (task_id, tk) →
      ∃ tk', (run_events s task_id events).scheduled_tasks.find?
          (fun p => p.1 == task_id) = some (task_id, tk') ∧
        tk'.run_count = tk.run_count + events.length ∧
        tk'.error_count = tk.error_count + countFailures events ∧
        tk'.enabled = (if 1 ≤ countFailures events ∧
            5 ≤ tk.error_count + countFailures events then false else tk.enabled) ∧
        (∀ tag ∈ (run_events s task_id events).armed, tag ∈ s.armed) ∧
        ((1 ≤ countFailures events ∧ 5 ≤ tk.error_count + countFailures events) →
          task_id ∉ (run_events s task_id events).armed) := by
  intro events
  induction events with
  | nil =>
      intro s task_id tk hfind
      refine ⟨tk, by simpa [run_events] using hfind, by simp, by simp [countFailures],
        by simp [countFailures], by simp [run_events], ?_⟩
      rintro ⟨h1, -⟩
      simp [countFailures] at h1
  | cons ev rest ih =>
      intro s task_id tk hfind
      obtain ⟨o, n⟩ := ev
      cases o with
      | ok r =>
          have hstep : run_events s task_id ((RunOutcome.ok r, n) :: rest) =
              run_events (execute_task s task_id (.ok r) n) task_id rest := rfl
          obtain ⟨hfind1, harmed1⟩ := execute_task_ok_step s task_id tk r n hfind
          obtain ⟨tk', h1, h2, h3, h4, h5, h6⟩ :=
            ih (execute_task s task_id (.ok r) n) task_id _ hfind1
          have hc : countFailures ((RunOutcome.ok r, n) :: rest) = countFailures rest := by
            simp [countFailures, List.countP_cons, isFailure]
          have h2' : tk'.run_count = tk.run_count + 1 + rest.length := h2
          have h3' : tk'.error_count = tk.error_count + countFailures rest := h3
          have h4' : tk'.enabled = (if 1 ≤ countFailures rest ∧
              5 ≤ tk.error_count + countFailures rest then false else tk.enabled) := h4
          refine ⟨tk', by rw [hstep]; exact h1, ?_, ?_, ?_, ?_, ?_⟩
          · rw [h2', List.length_cons]
            omega
          · rw [h3', hc]
          · rw [h4', hc]
          · intro tag htag
            rw [hstep] at htag
            have := h5 tag htag
            rwa [harmed1] at this
          · rintro ⟨hc1, hc2⟩
            rw [hc] at hc1 hc2
            rw [hstep]
            intro hmem
            exact h6 ⟨hc1, hc2⟩ hmem
      | err e =>
          have hstep : run_events s task_id ((RunOutcome.err e, n) :: rest) =
              run_events (execute_task s task_id (.err e) n) task_id rest := rfl
          obtain ⟨hfind1, harmed1⟩ := execute_task_err_step s task_id tk e n hfind
          obtain ⟨tk', h1, h2, h3, h4, h5, h6⟩ :=
            ih (execute_task s task_id (.err e) n) task_id _ hfind1
          have hc : countFailures ((RunOutcome.err e, n) :: rest) =
              countFailures rest + 1 := by
            simp [countFailures, List.countP_cons, isFailure]
          have h2' : tk'.run_count = tk.run_count + 1 + rest.length := h2
          have h3' : tk'.error_count = tk.error_count + 1 + countFailures rest := h3
          have h4' : tk'.enabled = (if 1 ≤ countFailures rest ∧
              5 ≤ tk.error_count + 1 + countFailures rest then false
            else if 5 ≤ tk.error_count + 1 then false else tk.enabled) := h4
          refine ⟨tk', by rw [hstep]; exact h1, ?_, ?_, ?_, ?_, ?_⟩
          · rw [h2', List.length_cons]
            omega
          · rw [h3', hc]
            omega
          · rw [h4', hc]
            split_ifs <;> first | rfl | omega
          · intro tag htag
            rw [hstep] at htag
            have hs1 := h5 tag htag
            rw [harmed1] at hs1
            by_cases h5e : 5 ≤ tk.error_count + 1
            · rw [if_pos h5e] at hs1
              exact (List.mem_filter.mp hs1).1
            · rwa [if_neg h5e] at hs1
          · rintro ⟨hc1, hc2⟩
            rw [hc] at hc1 hc2
            rw [hstep]
            by_cases h5e : 5 ≤ tk.error_count + 1
            · intro hmem
              have hs1 := h5 task_id hmem
              rw [harmed1, if_pos h5e] at hs1
              have := (List.mem_filter.mp hs1).2
              simp at this
            · refine h6 ⟨by omega, by omega⟩

/-! ## C5: the task circuit breaker -/

/-- C5: a registered, enabled task with a clean error record whose callable
fails on every invocation is still enabled with `error_count = 4` after
four failures, and the fifth failure pushes `error_count` to 5 and invokes
`disable_task`: the task ends disabled and its cadence tag is cleared from
the armed set, so no sixth automatic invocation can fire. -/
theorem task_circuit_breaker (s : SchedulerState) (task_id : String)
    (tk : ScheduledTask)
    (hfind : s.scheduled_tasks.find? (fun p => p.1 == task_id) = some (task_id, tk))
    (hen : tk.enabled = true) (herr : tk.error_count = 0)
    (e1 e2 e3 e4 e5 : String) (n1 n2 n3 n4 n5 : Nat) :
    (∃ tk4, (run_events s task_id [(.err e1, n1), (.err e2, n2), (.err e3, n3),
        (.err e4, n4)]).scheduled_tasks.find? (fun p => p.1 == task_id) =
          some (task_id, tk4) ∧
      tk4.error_count = 4 ∧ tk4.enabled = true ∧
      tk4.run_count = tk.run_count + 4) ∧
    (∃ tk5, (run_events s task_id [(.err e1, n1), (.err e2, n2), (.err e3, n3),
        (.err e4, n4), (.err e5, n5)]).scheduled_tasks.find?
          (fun p => p.1 == task_id) = some (task_id, tk5) ∧
      tk5.error_count = 5 ∧ tk5.enabled = false ∧
      tk5.run_count = tk.run_count + 5) ∧
    task_id ∉ (run_events s task_id [(.err e1, n1), (.err e2, n2), (.err e3, n3),
      (.err e4, n4), (.err e5, n5)]).armed := by
  have hc4 : countFailures [((RunOutcome.err e1 : RunOutcome), n1), (.err e2, n2),
      (.err e3, n3), (.err e4, n4)] = 4 := by
    simp [countFailures, List.countP_cons, isFailure]
  have hc5 : countFailures [((RunOutcome.err e1 : RunOutcome), n1), (.err e2, n2),
      (.err e3, n3), (.err e4, n4), (.err e5, n5)] = 5 := by
    simp [countFailures, List.countP_cons, isFailure]
  obtain ⟨tk4, hf4, hr4, he4, hen4, -, -⟩ :=
    run_events_accounting [(.err e1, n1), (.err e2, n2), (.err e3, n3),
      (.err e4, n4)] s task_id tk hfind
  obtain ⟨tk5, hf5, hr5, he5, hen5, -, hnm5⟩ :=
    run_events_accounting [(.err e1, n1), (.err e2, n2), (.err e3, n3),
      (.err e4, n4), (.err e5, n5)] s task_id tk hfind
  rw [hc4] at he4 hen4
  rw [hc5] at he5 hen5
  refine ⟨⟨tk4, hf4, ?_, ?_, by simpa using hr4⟩,
    ⟨tk5, hf5, ?_, ?_, by simpa using hr5⟩, ?_⟩
  · rw [he4, herr]
  · rw [hen4, herr, if_neg (by omega), hen]
  · rw [he5, herr]
  · rw [hen5, herr, if_pos (by omega)]
  · exact hnm5 ⟨by rw [hc5]; omega, by rw [hc5, herr]⟩

/-- Witness for C5: five failing runs of the registered connection check. -/
theorem task_circuit_breaker_witness :
    ((run_events registryWitnessState "connection_check"
        [(.err "boom", 1), (.err "boom", 2), (.err "boom", 3),
         (.err "boom", 4)]).scheduled_tasks.find?
        (fun p => p.1 == "connection_check")).map
        (fun p => (p.2.error_count, p.2.enabled)) = some (4, true) ∧
    ((run_events registryWitnessState "connection_check"
        [(.err "boom", 1), (.err "boom", 2), (.err "boom", 3), (.err "boom", 4),
         (.err "boom", 5)]).scheduled_tasks.find?
        (fun p => p.1 == "connection_check")).map
        (fun p => (p.2.error_count, p.2.enabled)) = some (5, false) ∧
    "connection_check" ∉ (run_events registryWitnessState "connection_check"
        [(.err "boom", 1), (.err "boom", 2), (.err "boom", 3), (.err "boom", 4),
         (.err "boom", 5)]).armed := by
  obtain ⟨h4, h5, hnm⟩ := task_circuit_breaker registryWitnessState
    "connection_check" registryWitnessTask (by decide) rfl rfl
    "boom" "boom" "boom" "boom" "boom" 1 2 3 4 5
  obtain ⟨tk4, hf4, he4, hen4, -⟩ := h4
  obtain ⟨tk5, hf5, he5, hen5, -⟩ := h5
  refine ⟨?_, ?_, hnm⟩
  · rw [hf4]
    simp [he4, hen4]
  · rw [hf5]
    simp [he5, hen5]

/-! ## C10: lifetime accounting of a task -/

/-- C10: `error_count` is cumulative over the task's lifetime — a
successful execution clears only `last_error` and keeps `error_count`
untouched — so any five failures in total, interleaved with arbitrarily
many successes, disable the task; moreover `last_run` and `run_count` are
updated before the callable is invoked, so a failing execution still counts
as a run and advances `last_run`. -/
theorem execute_task_run_accounting (s : SchedulerState) (task_id : String)
    (tk : ScheduledTask)
    (hfind : s.scheduled_tasks.find? (fun p => p.1 == task_id) = some (task_id, tk)) :
    (∀ (r : Option String) (now : Nat),
      (execute_task s task_id (.ok r) now).scheduled_tasks.find?
          (fun p => p.1 == task_id) =
        some (task_id,
          { tk with
              last_run := some now, run_count := tk.run_count + 1,
              last_error := none })) ∧
    (∀ (e : String) (now : Nat),
      (execute_task s task_id (.err e) now).scheduled_tasks.find?
          (fun p => p.1 == task_id) =
        some (task_id,
          { tk with
              last_run := some now, run_count := tk.run_count + 1,
              error_count := tk.error_count + 1, last_error := some e,
              enabled := if 5 ≤ tk.error_count + 1 then false else tk.enabled })) ∧
    (∀ events : List (RunOutcome × Nat), countFailures events = 5 →
      tk.error_count = 0 →
      ∃ tk', (run_events s task_id events).scheduled_tasks.find?
          (fun p => p.1 == task_id) = some (task_id, tk') ∧
        tk'.error_count = 5 ∧ tk'.enabled = false ∧
        tk'.run_count = tk.run_count + events.length) := by
  refine ⟨fun r now => (execute_task_ok_step s task_id tk r now hfind).1,
    fun e now => (execute_task_err_step s task_id tk e now hfind).1, ?_⟩
  intro events hcount herr
  obtain ⟨tk', hf, hr, he, hen, -, -⟩ :=
    run_events_accounting events s task_id tk hfind
  rw [hcount] at he hen
  refine ⟨tk', hf, by rw [he, herr], ?_, hr⟩
  rw [hen, herr, if_pos (by omega)]

/-- Witness for C10: one success, one failure, and an interleaved sequence
with exactly five failures on the registered connection check. -/
theorem execute_task_run_accounting_witness :
    (execute_task registryWitnessState "connection_check"
        (.ok none) 9).scheduled_tasks.find? (fun p => p.1 == "connection_check") =
      some ("connection_check",
        { registryWitnessTask with
            last_run := some 9, run_count := registryWitnessTask.run_count + 1,
            last_error := none }) ∧
    (execute_task registryWitnessState "connection_check"
        (.err "down") 9).scheduled_tasks.find? (fun p => p.1 == "connection_check") =
      some ("connection_check",
        { registryWitnessTask with
            last_run := some 9, run_count := registryWitnessTask.run_count + 1,
            error_count := registryWitnessTask.error_count + 1,
            last_error := some "down",
            enabled := if 5 ≤ registryWitnessTask.error_count + 1 then false
              else registryWitnessTask.enabled }) ∧
    ((run_events registryWitnessState "connection_check"
        [(.ok none, 1), (.err "a", 2), (.err "b", 3), (.ok (some "r"), 4),
         (.err "c", 5), (.err "d", 6), (.ok none, 7),
         (.err "e", 8)]).scheduled_tasks.find?
        (fun p => p.1 == "connection_check")).map
        (fun p => (p.2.error_count, p.2.enabled)) = some (5, false) := by
  have h := execute_task_run_accounting registryWitnessState "connection_check"
    registryWitnessTask (by decide)
  refine ⟨h.1 none 9, h.2.1 "down" 9, ?_⟩
  obtain ⟨tk', hf, he, hen, -⟩ := h.2.2
    [(.ok none, 1), (.err "a", 2), (.err "b", 3), (.ok (some "r"), 4),
     (.err "c", 5), (.err "d", 6), (.ok none, 7), (.err "e", 8)]
    (by decide) rfl
  rw [hf]
  simp [he, hen]

/-! ## Preservation of the deduplication invariant (C1) -/

theorem metricPred_append (heap : List Alert) (a : Alert) (met : String)
    (p : String × Nat) (hp : p.2 < heap.length) :
    metricPred (heap ++ [a]) met p = metricPred heap met p := by
  simp only [metricPred, List.get?_eq_getElem?]
  rw [List.getElem?_append_left hp]

theorem metricPred_concat_self (heap : List Alert) (a : Alert) (met : String)
    (k : String) :
    metricPred (heap ++ [a]) met (k, heap.length) = (a.metric_name == met) := by
  simp only [metricPred, List.get?_eq_getElem?, List.getElem?_concat_length]

theorem metricPred_modify (heap : List Alert) (idx now : Nat) (met : String)
    (p : String × Nat) :
    metricPred (listModify (markResolved now) idx heap) met p =
      metricPred heap met p := by
  simp only [metricPred]
  rw [listModify_get?]
  by_cases h : idx = p.2
  · rw [if_pos h]
    cases hg : heap.get? p.2 <;> simp [markResolved]
  · rw [if_neg h]

theorem create_alert_preserves (m : AlertManager) (cat met msg sev : String)
    (v th : ℚ) (now : Nat) (hwf : IndicesWF m) :
    IndicesWF (create_alert m cat met msg v th sev now).1 ∧
    ∀ met' : String,
      activeCountFor (create_alert m cat met msg v th sev now).1 met' ≤
        activeCountFor m met' + (if met = met' then 1 else 0) := by
  have hc1 : (create_alert m cat met msg v th sev now).1.heap =
      m.heap ++ [(create_alert m cat met msg v th sev now).2] := rfl
  have hc2 : (create_alert m cat met msg v th sev now).1.active_alerts =
      dictInsert (alertId cat met now) m.heap.length m.active_alerts := rfl
  have hmetn : (create_alert m cat met msg v th sev now).2.metric_name = met := rfl
  constructor
  · intro p hp
    rw [hc2] at hp
    have hp' := mem_dictInsert _ _ _ _ hp
    rw [hc1, List.length_append, List.length_singleton]
    rcases hp' with hp' | hp'
    · rw [hp']
      omega
    · have := hwf p hp'
      omega
  · intro met'
    simp only [activeCountFor]
    rw [hc1, hc2]
    refine le_trans (countP_dictInsert_le _ _ _ _) ?_
    have hcongr : m.active_alerts.countP
        (metricPred (m.heap ++ [(create_alert m cat met msg v th sev now).2]) met') =
        m.active_alerts.countP (metricPred m.heap met') := by
      refine List.countP_congr fun p hp => ?_
      rw [metricPred_append _ _ _ _ (hwf p hp)]
    rw [hcongr, metricPred_concat_self, hmetn]
    by_cases h : met = met'
    · simp [h]
    · simp [h]

theorem resolve_alert_preserves (m : AlertManager) (aid : String) (now : Nat)
    (hwf : IndicesWF m) :
    IndicesWF (resolve_alert m aid now).1 ∧
    ∀ met : String,
      activeCountFor (resolve_alert m aid now).1 met ≤ activeCountFor m met := by
  cases hfind : m.active_alerts.find? (fun p => p.1 == aid) with
  | none =>
      have hres : resolve_alert m aid now = (m, false) := by
        simp only [resolve_alert, hfind]
      rw [hres]
      exact ⟨hwf, fun met => le_refl _⟩
  | some found =>
      have hres : resolve_alert m aid now =
          ({ m with
              heap := listModify (markResolved now) found.2 m.heap,
              active_alerts := m.active_alerts.filter (fun p => !(p.1 == aid)) },
            true) := by
        simp only [resolve_alert, hfind]
      rw [hres]
      constructor
      · intro p hp
        have hsub : p ∈ m.active_alerts := (List.mem_filter.mp hp).1
        have := hwf p hsub
        show p.2 < (listModify (markResolved now) found.2 m.heap).length
        rw [listModify_length]
        exact this
      · intro met
        show (m.active_alerts.filter (fun p => !(p.1 == aid))).countP
          (metricPred (listModify (markResolved now) found.2 m.heap) met) ≤ _
        have hcongr : (m.active_alerts.filter (fun p => !(p.1 == aid))).countP
            (metricPred (listModify (markResolved now) found.2 m.heap) met) =
            (m.active_alerts.filter (fun p => !(p.1 == aid))).countP
              (metricPred m.heap met) := by
          refine List.countP_congr fun p _ => ?_
          rw [metricPred_modify]
        rw [hcongr]
        exact List.Sublist.countP_le _ (List.filter_sublist _)

theorem resolve_foldl_preserves (ids : List String) (m : AlertManager) (now : Nat)
    (hwf : IndicesWF m) :
    IndicesWF (ids.foldl (fun acc alert_id => (resolve_alert acc alert_id now).1) m) ∧
    ∀ met : String,
      activeCountFor
          (ids.foldl (fun acc alert_id => (resolve_alert acc alert_id now).1) m) met ≤
        activeCountFor m met := by
  induction ids generalizing m with
  | nil => exact ⟨hwf, fun met => le_refl _⟩
  | cons aid rest ih =>
      obtain ⟨hwf1, hle1⟩ := resolve_alert_preserves m aid now hwf
      obtain ⟨hwf2, hle2⟩ := ih (resolve_alert m aid now).1 hwf1
      exact ⟨hwf2, fun met => le_trans (hle2 met) (hle1 met)⟩

theorem checkMetric_preserves (metrics thresholds : List (String × ℚ)) (now : Nat)
    (m : AlertManager) (check : String × String × String)
    (hwf : IndicesWF m) (hone : AtMostOnePerMetric m) :
    IndicesWF (checkMetric metrics thresholds now m check) ∧
    AtMostOnePerMetric (checkMetric metrics thresholds now m check) := by
  cases hm : metrics.find? (fun p => p.1 == check.1) with
  | none =>
      have : checkMetric metrics thresholds now m check = m := by
        simp only [checkMetric, hm]
      rw [this]
      exact ⟨hwf, hone⟩
  | some mv =>
      cases ht : thresholds.find? (fun p => p.1 == check.1) with
      | none =>
          have : checkMetric metrics thresholds now m check = m := by
            simp only [checkMetric, hm, ht]
          rw [this]
          exact ⟨hwf, hone⟩
      | some tv =>
          by_cases hv : mv.2 > tv.2
          · cases hfa : findAlertByMetric m check.1 with
            | some q =>
                have : checkMetric metrics thresholds now m check = m := by
                  simp only [checkMetric, hm, ht, if_pos hv, hfa]
                rw [this]
                exact ⟨hwf, hone⟩
            | none =>
                have hstep : checkMetric metrics thresholds now m check =
                    (create_alert m check.2.2 check.1
                      (thresholdMessage check.2.1 mv.2 tv.2) mv.2 tv.2
                      (determine_severity mv.2 tv.2) now).1 := by
                  simp only [checkMetric, hm, ht, if_pos hv, hfa]
                have hzero : activeCountFor m check.1 = 0 := by
                  rw [activeCountFor, List.countP_eq_zero]
                  exact fun p hp => (List.find?_eq_none.mp hfa) p hp
                obtain ⟨hwf', hle⟩ := create_alert_preserves m check.2.2 check.1
                  (thresholdMessage check.2.1 mv.2 tv.2)
                  (determine_severity mv.2 tv.2) mv.2 tv.2 now hwf
                rw [hstep]
                refine ⟨hwf', fun met => ?_⟩
                by_cases hmet : check.1 = met
                · have := hle met
                  rw [if_pos hmet] at this
                  subst hmet
                  omega
                · have := hle met
                  rw [if_neg hmet] at this
                  have := le_trans this (by simpa using hone met)
                  simpa using this
          · have hstep : checkMetric metrics thresholds now m check =
                (alertsToResolve m check.1).foldl
                  (fun acc alert_id => (resolve_alert acc alert_id now).1) m := by
              simp only [checkMetric, hm, ht, if_neg hv]
            rw [hstep]
            obtain ⟨hwf', hle⟩ := resolve_foldl_preserves
              (alertsToResolve m check.1) m now hwf
            exact ⟨hwf', fun met => le_trans (hle met) (hone met)⟩

/-- C1: threshold evaluation preserves the deduplication invariant — from
any well-formed state in which at most one active (unresolved) alert exists
per metric name, `_check_thresholds` again reaches such a state: a breach
while an alert for the metric is already active creates no second alert, so
at most one unresolved alert per metric name exists at any time when every
creation goes through threshold evaluation. -/
theorem check_thresholds_dedup (m : AlertManager)
    (metrics thresholds : List (String × ℚ)) (now : Nat)
    (hwf : IndicesWF m) (hone : AtMostOnePerMetric m) :
    IndicesWF (check_thresholds m metrics thresholds now) ∧
    AtMostOnePerMetric (check_thresholds m metrics thresholds now) := by
  have step := checkMetric_preserves metrics thresholds now
  have p1 := step m ("connection_count", "Conexiones activas", "connection") hwf hone
  have p2 := step _ ("cpu_usage", "Uso de CPU", "performance") p1.1 p1.2
  have p3 := step _ ("memory_usage", "Uso de memoria", "performance") p2.1 p2.2
  have p4 := step _ ("disk_usage", "Uso de disco", "disk") p3.1 p3.2
  have p5 := step _ ("slow_queries_count", "Consultas lentas", "query") p4.1 p4.2
  exact p5

/-- Witness for C1: one evaluation over a breaching cpu sample starting
from the empty manager. -/
theorem check_thresholds_dedup_witness :
    IndicesWF emptyAlertManager ∧ AtMostOnePerMetric emptyAlertManager ∧
    AtMostOnePerMetric (check_thresholds emptyAlertManager
      [("cpu_usage", 95)] [("cpu_usage", 80)] 5) := by
  have hwf : IndicesWF emptyAlertManager := by
    intro p hp
    simp [emptyAlertManager] at hp
  have hone : AtMostOnePerMetric emptyAlertManager := by
    intro met
    simp [activeCountFor, emptyAlertManager]
  exact ⟨hwf, hone,
    (check_thresholds_dedup emptyAlertManager [("cpu_usage", 95)]
      [("cpu_usage", 80)] 5 hwf hone).2⟩

/-! ## C3: hysteresis of threshold evaluation -/

theorem hysteresis_checkMetric (met desc cat : String) (T : ℚ) (t1 t2 t3 : Nat) :
    checkMetric [(met, T + 1)] [(met, T)] t1 emptyAlertManager (met, desc, cat) =
      hysManagerOne met desc cat T t1 ∧
    checkMetric [(met, T + 1)] [(met, T)] t2 (hysManagerOne met desc cat T t1)
      (met, desc, cat) = hysManagerOne met desc cat T t1 ∧
    checkMetric [(met, T - 1)] [(met, T)] t3 (hysManagerOne met desc cat T t1)
      (met, desc, cat) = hysManagerThree met desc cat T t1 t3 := by
  have hmHi : List.find? (fun p => p.1 == met) [(met, T + 1)] = some (met, T + 1) :=
    List.find?_cons_of_pos _ (by simp)
  have hmLo : List.find? (fun p => p.1 == met) [(met, T - 1)] = some (met, T - 1) :=
    List.find?_cons_of_pos _ (by simp)
  have hth : List.find? (fun p => p.1 == met) [(met, T)] = some (met, T) :=
    List.find?_cons_of_pos _ (by simp)
  have hv : (T + 1 : ℚ) > T := by linarith
  have hv3 : ¬ ((T - 1 : ℚ) > T) := by linarith
  have hfaEmpty : findAlertByMetric emptyAlertManager met = none := rfl
  have hfaOne : findAlertByMetric (hysManagerOne met desc cat T t1) met =
      some (alertId cat met t1, 0) := by
    show List.find? (metricPred [hysAlert met desc cat T t1] met)
      [(alertId cat met t1, 0)] = some (alertId cat met t1, 0)
    exact List.find?_cons_of_pos _ (by simp [metricPred, hysAlert])
  refine ⟨?_, ?_, ?_⟩
  · simp only [checkMetric, hmHi, hth, if_pos hv, hfaEmpty]
    rfl
  · simp only [checkMetric, hmHi, hth, if_pos hv, hfaOne]
  · simp only [checkMetric, hmLo, hth, if_neg hv3]
    have halerts : alertsToResolve (hysManagerOne met desc cat T t1) met =
        [alertId cat met t1] := by
      show (List.filter (metricPred [hysAlert met desc cat T t1] met)
        [(alertId cat met t1, 0)]).map (fun p => p.1) = [alertId cat met t1]
      simp [metricPred, hysAlert]
    rw [halerts]
    show (resolve_alert (hysManagerOne met desc cat T t1) (alertId cat met t1) t3).1 =
      hysManagerThree met desc cat T t1 t3
    have hfind : (hysManagerOne met desc cat T t1).active_alerts.find?
        (fun p => p.1 == alertId cat met t1) = some (alertId cat met t1, 0) := by
      show List.find? (fun p => p.1 == alertId cat met t1)
        [(alertId cat met t1, 0)] = some (alertId cat met t1, 0)
      exact List.find?_cons_of_pos _ (by simp)
    have hres : resolve_alert (hysManagerOne met desc cat T t1)
        (alertId cat met t1) t3 =
        ({ hysManagerOne met desc cat T t1 with
            heap := listModify (markResolved t3) 0
              (hysManagerOne met desc cat T t1).heap,
            active_alerts := (hysManagerOne met desc cat T t1).active_alerts.filter
              (fun p => !(p.1 == alertId cat met t1)) },
          true) := by
      simp only [resolve_alert, hfind]
    rw [hres]
    have hfil : (hysManagerOne met desc cat T t1).active_alerts.filter
        (fun p => !(p.1 == alertId cat met t1)) = [] := by
      show List.filter (fun p => !(p.1 == alertId cat met t1))
        [(alertId cat met t1, 0)] = []
      simp
    show ({ hysManagerOne met desc cat T t1 with
        heap := listModify (markResolved t3) 0 (hysManagerOne met desc cat T t1).heap,
        active_alerts := (hysManagerOne met desc cat T t1).active_alerts.filter
          (fun p => !(p.1 == alertId cat met t1)) } : AlertManager) =
      hysManagerThree met desc cat T t1 t3
    rw [hfil]
    rfl

theorem hysteresis_general (met desc cat : String) (T : ℚ) (t1 t2 t3 : Nat)
    (hcol : ∀ (mm : AlertManager) (v : ℚ) (now : Nat),
      check_thresholds mm [(met, v)] [(met, T)] now =
        checkMetric [(met, v)] [(met, T)] now mm (met, desc, cat)) :
    (check_thresholds emptyAlertManager [(met, T + 1)] [(met, T)]
        t1).alert_history.length = 1 ∧
    (check_thresholds emptyAlertManager [(met, T + 1)] [(met, T)]
        t1).active_alerts.length = 1 ∧
    check_thresholds (check_thresholds emptyAlertManager [(met, T + 1)]
        [(met, T)] t1) [(met, T + 1)] [(met, T)] t2 =
      check_thresholds emptyAlertManager [(met, T + 1)] [(met, T)] t1 ∧
    (check_thresholds (check_thresholds (check_thresholds emptyAlertManager
        [(met, T + 1)] [(met, T)] t1) [(met, T + 1)] [(met, T)] t2)
        [(met, T - 1)] [(met, T)] t3).active_alerts = [] ∧
    (check_thresholds (check_thresholds (check_thresholds emptyAlertManager
        [(met, T + 1)] [(met, T)] t1) [(met, T + 1)] [(met, T)] t2)
        [(met, T - 1)] [(met, T)] t3).alert_history.length = 1 ∧
    ∀ a ∈ (check_thresholds (check_thresholds (check_thresholds emptyAlertManager
        [(met, T + 1)] [(met, T)] t1) [(met, T + 1)] [(met, T)] t2)
        [(met, T - 1)] [(met, T)] t3).heap, a.resolved = true := by
  obtain ⟨h1, h2, h3⟩ := hysteresis_checkMetric met desc cat T t1 t2 t3
  have e1 : check_thresholds emptyAlertManager [(met, T + 1)] [(met, T)] t1 =
      hysManagerOne met desc cat T t1 := by
    rw [hcol]
    exact h1
  have e2 : check_thresholds (hysManagerOne met desc cat T t1) [(met, T + 1)]
      [(met, T)] t2 = hysManagerOne met desc cat T t1 := by
    rw [hcol]
    exact h2
  have e3 : check_thresholds (hysManagerOne met desc cat T t1) [(met, T - 1)]
      [(met, T)] t3 = hysManagerThree met desc cat T t1 t3 := by
    rw [hcol]
    exact h3
  rw [e1, e2, e3]
  refine ⟨rfl, rfl, rfl, rfl, rfl, ?_⟩
  intro a ha
  have : a = markResolved t3 (hysAlert met desc cat T t1) := by
    simpa [hysManagerThree] using ha
  rw [this]
  rfl

/-- C3: for every metric `M` tracked by `_check_thresholds` with
configured threshold `T` and no pre-existing alert, the sample sequence
`[T+1, T+1, T-1]` produces exactly one alert creation (at the first
sample: history and active set reach size 1) and exactly one resolution
(at the third sample: active set empties, history stays at 1, the alert is
marked resolved); the second sample changes nothing. -/
theorem threshold_hysteresis (check : String × String × String)
    (hcheck : check ∈ checksList) (T : ℚ) (t1 t2 t3 : Nat) :
    (check_thresholds emptyAlertManager [(check.1, T + 1)] [(check.1, T)]
        t1).alert_history.length = 1 ∧
    (check_thresholds emptyAlertManager [(check.1, T + 1)] [(check.1, T)]
        t1).active_alerts.length = 1 ∧
    check_thresholds (check_thresholds emptyAlertManager [(check.1, T + 1)]
        [(check.1, T)] t1) [(check.1, T + 1)] [(check.1, T)] t2 =
      check_thresholds emptyAlertManager [(check.1, T + 1)] [(check.1, T)] t1 ∧
    (check_thresholds (check_thresholds (check_thresholds emptyAlertManager
        [(check.1, T + 1)] [(check.1, T)] t1) [(check.1, T + 1)] [(check.1, T)] t2)
        [(check.1, T - 1)] [(check.1, T)] t3).active_alerts = [] ∧
    (check_thresholds (check_thresholds (check_thresholds emptyAlertManager
        [(check.1, T + 1)] [(check.1, T)] t1) [(check.1, T + 1)] [(check.1, T)] t2)
        [(check.1, T - 1)] [(check.1, T)] t3).alert_history.length = 1 ∧
    ∀ a ∈ (check_thresholds (check_thresholds (check_thresholds emptyAlertManager
        [(check.1, T + 1)] [(check.1, T)] t1) [(check.1, T + 1)] [(check.1, T)] t2)
        [(check.1, T - 1)] [(check.1, T)] t3).heap, a.resolved = true := by
  fin_cases hcheck
  · exact hysteresis_general "connection_count" "Conexiones activas" "connection"
      T t1 t2 t3 (fun mm v now => rfl)
  · exact hysteresis_general "cpu_usage" "Uso de CPU" "performance"
      T t1 t2 t3 (fun mm v now => rfl)
  · exact hysteresis_general "memory_usage" "Uso de memoria" "performance"
      T t1 t2 t3 (fun mm v now => rfl)
  · exact hysteresis_general "disk_usage" "Uso de disco" "disk"
      T t1 t2 t3 (fun mm v now => rfl)
  · exact hysteresis_general "slow_queries_count" "Consultas lentas" "query"
      T t1 t2 t3 (fun mm v now => rfl)

/-- Witness for C3: the cpu metric with threshold 80 and samples 81, 81, 79. -/
theorem threshold_hysteresis_witness :
    ("cpu_usage", "Uso de CPU", "performance") ∈ checksList ∧
    (check_thresholds emptyAlertManager [("cpu_usage", (80 : ℚ) + 1)]
        [("cpu_usage", (80 : ℚ))] 1).alert_history.length = 1 ∧
    (check_thresholds emptyAlertManager [("cpu_usage", (80 : ℚ) + 1)]
        [("cpu_usage", (80 : ℚ))] 1).active_alerts.length = 1 ∧
    (check_thresholds (check_thresholds (check_thresholds emptyAlertManager
        [("cpu_usage", (80 : ℚ) + 1)] [("cpu_usage", (80 : ℚ))] 1)
        [("cpu_usage", (80 : ℚ) + 1)] [("cpu_usage", (80 : ℚ))] 2)
        [("cpu_usage", (80 : ℚ) - 1)] [("cpu_usage", (80 : ℚ))] 3).active_alerts =
      [] := by
  have h := threshold_hysteresis ("cpu_usage", "Uso de CPU", "performance")
    (by decide) 80 1 2 3
  exact ⟨by decide, h.1, h.2.1, h.2.2.2.1⟩

end SQLAgent
